import Mathlib

/-!
Verification development for the DelayedNotifier service.

Shallow embedding of the scheduling and delivery pipeline:
`internal/entity` (Notification, Status, Channel), `internal/repository`
(NotifyRepository: Create, GetByID, GetForProcess, UpdateStatus,
RescheduleNotification, link lookups) and `internal/service`
(NotifyService: Create, GetStatus, Cancel, ProcessQueue, worker handler,
updateAfterSend, calculateNextAttempt), plus the channel-multiplexing
sender facade `internal/transport/sender/multi.go`.

Conventions of the embedding:
- UUIDs are `Nat` (0 plays the role of `uuid.Nil`).
- `time.Time` and `time.Duration` are `Int` nanoseconds (Go durations are
  int64 nanoseconds); the Go zero time is the integer 0.
- Go int64 overflow is explicit via `int64wrap`.
- The database table is a `List Notification`; a transaction is the
  whole-function `Except`: an `.ok` result is the committed table, an
  `.error` result means roll-back (the caller keeps its old table).
- `FOR UPDATE SKIP LOCKED` is modelled by an explicit set of row ids held
  locked by other open claiming transactions; the claim query skips them
  and its results are added to that set for the transaction's duration.
-/

namespace DelayedNotifier

/-- `entity.Status` (string-valued in the source: waiting, in_process,
sent, failed, cancelled). -/
inductive Status where
  | waiting
  | inProcess
  | sent
  | failed
  | cancelled
deriving DecidableEq, Repr

/-- `entity.Channel` is a Go string type. -/
abbrev Channel := String

/-- `entity.Channel.IsValid`: true exactly on the two declared constants. -/
def channelIsValid (c : Channel) : Bool :=
  c = "telegram" || c = "email"

/-- `entity.Notification` (fields used by the core pipeline). -/
structure Notification where
  id : Nat
  userId : Nat
  channel : Channel
  payload : String
  recipientIdentifier : String
  scheduledAt : Int
  sentAt : Option Int
  status : Status
  retryCount : Nat
  lastError : Option String
  createdAt : Int
deriving DecidableEq, Repr

/-- Error kinds surfaced by the repository layer (`entity/error.go`). -/
inductive RepoError where
  | dataNotFound
  | conflictingData
deriving DecidableEq, Repr

/-- Errors surfaced by the service layer (`service.go`, `entity/error.go`). -/
inductive ServiceError where
  | invalidData
  | recipientNotFound
  | conflictingData
  | notificationNotFound
  | alreadySent
  | alreadyCancelled
  | dataNotFound
deriving DecidableEq, Repr

/-- Row lookup by id: the `WHERE id = $1` of the single-row queries. -/
def getRow (db : List Notification) (id : Nat) : Option Notification :=
  db.find? (fun n => n.id == id)

/-- Row update by id: the `UPDATE … WHERE id = $1` of the single-row
statements (applied to every matching row, as SQL does). -/
def setRow (db : List Notification) (id : Nat) (f : Notification → Notification) :
    List Notification :=
  db.map (fun n => if n.id == id then f n else n)

/-- Effect of `NotifyRepository.UpdateStatus` on one row
(repository.go:166-201): write `status`, set `last_error` to the given
value or NULL; on `sent` also set `sent_at = NOW()`; on `failed` also
increment `retry_count`. There is no guard on the row's current status. -/
def updateRow (now : Int) (status : Status) (lastErr : Option String)
    (n : Notification) : Notification :=
  let n := { n with status := status, lastError := lastErr }
  match status with
  | .sent => { n with sentAt := some now }
  | .failed => { n with retryCount := n.retryCount + 1 }
  | _ => n

/-- `NotifyRepository.UpdateStatus` (repository.go:166-201): errors with
`DataNotFound` iff no row was affected. -/
def updateStatus (db : List Notification) (now : Int) (id : Nat)
    (status : Status) (lastErr : Option String) :
    Except RepoError (List Notification) :=
  if (getRow db id).isSome then
    .ok (setRow db id (updateRow now status lastErr))
  else
    .error .dataNotFound

/-- Effect of `NotifyRepository.RescheduleNotification` on one row
(repository.go:203-226): set `scheduled_at`, force `status = waiting`,
clear `last_error`; `retry_count` is untouched. -/
def rescheduleRow (newScheduledAt : Int) (n : Notification) : Notification :=
  { n with scheduledAt := newScheduledAt, status := .waiting, lastError := none }

/-- `NotifyRepository.RescheduleNotification` (repository.go:203-226). -/
def rescheduleNotification (db : List Notification) (id : Nat)
    (newScheduledAt : Int) : Except RepoError (List Notification) :=
  if (getRow db id).isSome then
    .ok (setRow db id (rescheduleRow newScheduledAt))
  else
    .error .dataNotFound

/-- `NotifyRepository.GetByID` (repository.go:107-127). -/
def getByID (db : List Notification) (id : Nat) :
    Except RepoError Notification :=
  match getRow db id with
  | some n => .ok n
  | none => .error .dataNotFound

/-- Insertion sort step, used to model `ORDER BY scheduled_at ASC`. -/
def insertBy (le : Notification → Notification → Bool) (a : Notification) :
    List Notification → List Notification
  | [] => [a]
  | b :: bs => if le a b then a :: b :: bs else b :: insertBy le a bs

/-- Insertion sort, used to model `ORDER BY scheduled_at ASC`. -/
def sortBy (le : Notification → Notification → Bool) :
    List Notification → List Notification
  | [] => []
  | a :: as => insertBy le a (sortBy le as)

/-- `NotifyRepository.GetForProcess` (repository.go:129-164): the claim
query `SELECT … WHERE status = 'waiting' AND scheduled_at <= NOW()
ORDER BY scheduled_at ASC LIMIT $n FOR UPDATE SKIP LOCKED`.
`locked` is the set of row ids currently locked by other open claiming
transactions; SKIP LOCKED makes the query skip exactly those rows, and
the rows it returns are locked until the caller's transaction ends. -/
def getForProcess (db : List Notification) (locked : List Nat) (now : Int)
    (limit : Nat) : List Notification :=
  (sortBy (fun a b => a.scheduledAt ≤ b.scheduledAt)
    (db.filter (fun n =>
      n.status == .waiting && n.scheduledAt ≤ now && !(locked.contains n.id)))).take limit

/-- Go `time.Minute` in nanoseconds. -/
def timeMinute : Int := 60 * 1000000000

/-- Go `time.Hour` in nanoseconds. -/
def timeHour : Int := 60 * timeMinute

/-- Wrap an integer into the signed 64-bit range, the way Go int64
arithmetic overflows. -/
def int64wrap (x : Int) : Int :=
  (x + 2 ^ 63) % 2 ^ 64 - 2 ^ 63

/-- Service configuration knobs (service.go:20-29 and options):
`maxRetries` defaults to 3, `baseRetryDelay` to 5 minutes. -/
structure Config where
  maxRetries : Nat
  baseRetryDelay : Int
deriving Repr

/-- The defaults `_maxRetries = 3`, `_baseRetryDelay = 5 * time.Minute`. -/
def defaultConfig : Config :=
  { maxRetries := 3, baseRetryDelay := 5 * timeMinute }

/-- `NotifyService.calculateNextAttempt` (service.go:569-572):
`delay := s.baseRetryDelay * time.Duration(1<<retryCount)` then
`time.Now().UTC().Add(delay)`. Both the shift and the product are Go
int64 arithmetic, hence the explicit wraps; no ceiling is applied. -/
def calculateNextAttempt (baseRetryDelay now : Int) (retryCount : Nat) : Int :=
  now + int64wrap (baseRetryDelay * int64wrap (2 ^ retryCount))

/-- `NotifyService.updateAfterSend` (service.go:536-567), the dispatcher's
single transaction after a send attempt. On success: `UpdateStatus(sent)`.
On failure: re-read the row, `UpdateStatus(failed, errText)` (increments
`retry_count`), and if the pre-read `retry_count < maxRetries` also
`Reschedule(id, calculateNextAttempt(retry_count))`. An `.error` result
means the transaction rolled back. -/
def updateAfterSend (cfg : Config) (db : List Notification) (now : Int)
    (id : Nat) (sendErr : Option String) :
    Except RepoError (List Notification) :=
  match sendErr with
  | none => updateStatus db now id .sent none
  | some msg => do
    let n ← getByID db id
    let db1 ← updateStatus db now id .failed (some msg)
    if n.retryCount < cfg.maxRetries then
      rescheduleNotification db1 id
        (calculateNextAttempt cfg.baseRetryDelay now n.retryCount)
    else
      pure db1

/-- Outcome of one worker message: the committed table, the ids whose
cache entries were invalidated afterwards, and whether the handler
returned nil (ack). -/
structure WorkerOutcome where
  db : List Notification
  invalidated : List Nat
  ack : Bool
deriving DecidableEq, Repr

/-- The worker handler returned by `NotifyService.GetWorkerHandler`
(service.go:420-477), after the JSON decode succeeded: run the send
(whose result is `sendErr`), then `updateAfterSend`; if that errors the
handler returns the error; if `sendErr` is non-nil the handler returns
`sendErr` — in both cases before reaching the cache invalidation; only
on full success is `invalidateCache(id)` reached. -/
def workerHandler (cfg : Config) (db : List Notification) (now : Int)
    (id : Nat) (sendErr : Option String) : WorkerOutcome :=
  match updateAfterSend cfg db now id sendErr with
  | .error _ => { db := db, invalidated := [], ack := false }
  | .ok db1 =>
    match sendErr with
    | some _ => { db := db1, invalidated := [], ack := false }
    | none => { db := db1, invalidated := [id], ack := true }

/-- `NotifyService.publishToQueue` (service.go:500-520), inside the
scheduler's open transaction. `pubErr` is the bus outcome of
`publisher.Publish`. On publish failure the code fires
`UpdateStatus(failed, "publish error: …")` with its error discarded and
returns the publish error; on publish success it runs
`UpdateStatus(in_process, nil)`. (JSON marshalling of the in-memory
record cannot fail and is elided.) Returns the updated table and whether
the call returned nil. -/
def publishToQueue (db : List Notification) (now : Int) (n : Notification)
    (pubErr : Option String) : List Notification × Bool :=
  match pubErr with
  | some e =>
    let db1 :=
      match updateStatus db now n.id .failed (some ("publish error: " ++ e)) with
      | .ok d => d
      | .error _ => db
    (db1, false)
  | none =>
    match updateStatus db now n.id .inProcess none with
    | .ok d => (d, true)
    | .error _ => (db, false)

/-- Outcome of one scheduler tick: committed table, cache invalidations
performed, and the processed/failed counters of `ProcessingStats`. -/
structure TickOutcome where
  db : List Notification
  invalidated : List Nat
  processed : Nat
  failed : Nat
deriving DecidableEq, Repr

/-- `NotifyService.ProcessQueue` (service.go:351-417), one scheduler tick:
claim a batch with `GetForProcess`, then `publishToQueue` each row,
counting successes and failures; per-row failures do not abort the
transaction. The tick performs no cache invalidation. -/
def processQueue (db : List Notification) (locked : List Nat) (now : Int)
    (limit : Nat) (pubErr : Nat → Option String) : TickOutcome :=
  (getForProcess db locked now limit).foldl
    (fun acc n =>
      let r := publishToQueue acc.db now n (pubErr n.id)
      if r.2 then
        { acc with db := r.1, processed := acc.processed + 1 }
      else
        { acc with db := r.1, failed := acc.failed + 1 })
    { db := db, invalidated := [], processed := 0, failed := 0 }

/-- `NotifyService.Cancel` (service.go:291-348): in one transaction read
the row (`NotificationNotFound` if absent), refuse `sent` and `cancelled`
rows, otherwise `UpdateStatus(cancelled, "cancelled by user")`; after a
successful commit invalidate the cache entry. An `.error` first component
means the transaction rolled back and nothing was invalidated. -/
def cancel (db : List Notification) (now : Int) (id : Nat) :
    Except ServiceError (List Notification) × List Nat :=
  match getRow db id with
  | none => (.error .notificationNotFound, [])
  | some n =>
    if n.status = .sent then (.error .alreadySent, [])
    else if n.status = .cancelled then (.error .alreadyCancelled, [])
    else
      match updateStatus db now id .cancelled (some "cancelled by user") with
      | .ok db1 => (.ok db1, [id])
      | .error _ => (.error .dataNotFound, [])

/-- `service.CreateNotificationRequest`. -/
structure CreateRequest where
  userId : Nat
  channel : Channel
  payload : String
  scheduledAt : Int
deriving DecidableEq, Repr

/-- `NotifyService.validateCreateRequest` (service.go:481-498): every
branch fails with an `ErrInvalidData`-wrapped error; checks run in
source order. -/
def validateCreateRequest (req : CreateRequest) : Option ServiceError :=
  if req.userId = 0 then some .invalidData
  else if req.channel = "" then some .invalidData
  else if !channelIsValid req.channel then some .invalidData
  else if req.payload = "" then some .invalidData
  else if req.scheduledAt = 0 then some .invalidData
  else none

/-- The recipient-link tables `user_telegram_links` / `user_email_links`
as read by `GetTelegramChatIDByUserID` / `GetUserEmailByUserID`
(repository.go:228-272). -/
structure Links where
  telegramChatId : Nat → Option Int
  email : Nat → Option String

/-- A store access, for recording which operations a transaction ran. -/
inductive StoreOp where
  | getTelegramChatId (userId : Nat)
  | getEmail (userId : Nat)
  | insert (id : Nat)
deriving DecidableEq, Repr

/-- One `tm.ExecuteInTransaction` scope: its name tag and the store
operations it ran. -/
structure Txn where
  name : String
  ops : List StoreOp
deriving DecidableEq, Repr

/-- `NotifyService.Create` (service.go:118-235). Validation, then the
past-time clamp (`if scheduledAt.Before(now) then now + time.Minute`),
then recipient resolution inside the transaction named
`get_recipient_identifier`, then the insert (`repo.Create`) inside a
second transaction named `create_notification`. `newId` models the fresh
UUIDv7 drawn in `repo.Create`; the insert fails with `ConflictingData` on
a primary-key collision. Returns the service result, the committed
table, and the list of transactions that ran. -/
def create (links : Links) (db : List Notification) (now : Int) (newId : Nat)
    (req : CreateRequest) :
    Except ServiceError (Notification × List Notification) × List Txn :=
  match validateCreateRequest req with
  | some e => (.error e, [])
  | none =>
    let scheduledAt :=
      if req.scheduledAt < now then now + timeMinute else req.scheduledAt
    let resolveResult : Except ServiceError String :=
      if req.channel = "telegram" then
        match links.telegramChatId req.userId with
        | some chatID => .ok (toString chatID)
        | none => .error .recipientNotFound
      else if req.channel = "email" then
        match links.email req.userId with
        | some email => .ok email
        | none => .error .recipientNotFound
      else .error .invalidData
    let resolveTxn : Txn :=
      { name := "get_recipient_identifier",
        ops := if req.channel = "telegram" then [.getTelegramChatId req.userId]
               else if req.channel = "email" then [.getEmail req.userId]
               else [] }
    match resolveResult with
    | .error e => (.error e, [resolveTxn])
    | .ok recipientIdentifier =>
      let n : Notification :=
        { id := newId
          userId := req.userId
          channel := req.channel
          payload := req.payload
          recipientIdentifier := recipientIdentifier
          scheduledAt := scheduledAt
          sentAt := none
          status := .waiting
          retryCount := 0
          lastError := none
          createdAt := now }
      let insertTxn : Txn := { name := "create_notification", ops := [.insert newId] }
      if (getRow db newId).isSome then
        (.error .conflictingData, [resolveTxn, insertTxn])
      else
        (.ok (n, db ++ [n]), [resolveTxn, insertTxn])

/-- `NotifyService.getFromCache` (service.go:580-592). `cacheGet` is the
raw result of `cache.Get` (`.error` for a client error, otherwise the
cached string); `decode` abstracts `json.Unmarshal` into a Notification.
The code returns `(nil, err)` when the client errored or the string is
empty, and `(nil, err)` when decoding fails. -/
def getFromCache (cacheGet : Except Unit String)
    (decode : String → Option Notification) :
    Except Unit (Option Notification) :=
  match cacheGet with
  | .error _ => .error ()
  | .ok s =>
    if s = "" then .ok none
    else
      match decode s with
      | none => .error ()
      | some n => .ok (some n)

/-- `NotifyService.GetStatus` (service.go:238-288): serve from cache only
when `getFromCache` returned no error and a non-nil value; otherwise read
the store (`DataNotFound` surfaces as `NotificationNotFound`) and attempt
a cache population whose result is discarded (`_ = s.saveToCache(…)`,
here the ignored `saveFails` flag). -/
def getStatus (cacheGet : Except Unit String)
    (decode : String → Option Notification) (saveFails : Bool)
    (db : List Notification) (id : Nat) : Except ServiceError Notification :=
  match getFromCache cacheGet decode with
  | .ok (some n) => .ok n
  | _ =>
    match getRow db id with
    | none => .error .notificationNotFound
    | some n =>
      let _ := saveFails
      .ok n

/-- Result of `MultiSender.Send`: nil, a channel sender's error, or the
`unsupported channel` error of the default branch. -/
inductive SendResult where
  | ok
  | err (msg : String)
  | unsupported (channel : Channel)
deriving DecidableEq, Repr

/-- `sender.MultiSender` (multi.go): optional concrete senders, each
modelled by the error option its `Send` returns for a notification. -/
structure MultiSender where
  telegramSender : Option (Notification → Option String)
  emailSender : Option (Notification → Option String)

/-- `MultiSender.Send` (multi.go:25-39): switch on `n.channel`; a known
channel with a nil sender falls through the switch and returns nil; only
the default branch returns the `unsupported channel` error. -/
def MultiSender.send (s : MultiSender) (n : Notification) : SendResult :=
  if n.channel = "telegram" then
    match s.telegramSender with
    | some f =>
      match f n with
      | none => .ok
      | some msg => .err msg
    | none => .ok
  else if n.channel = "email" then
    match s.emailSender with
    | some f =>
      match f n with
      | none => .ok
      | some msg => .err msg
    | none => .ok
  else .unsupported n.channel

/-! ### Helper lemmas -/

lemma updateRow_id (now : Int) (st : Status) (le : Option String)
    (n : Notification) : (updateRow now st le n).id = n.id := by
  cases st <;> rfl

lemma rescheduleRow_id (t : Int) (n : Notification) :
    (rescheduleRow t n).id = n.id := rfl

lemma getRow_setRow_self (db : List Notification) (id : Nat)
    (f : Notification → Notification) (hf : ∀ n, (f n).id = n.id) :
    getRow (setRow db id f) id = (getRow db id).map f := by
  induction db with
  | nil => rfl
  | cons n rest ih =>
    simp only [getRow, setRow, List.map_cons] at ih ⊢
    by_cases h : n.id = id
    · rw [if_pos (by simpa using h)]
      rw [List.find?_cons_of_pos _ (by simp [hf n, h]),
        List.find?_cons_of_pos _ (by simp [h])]
      rfl
    · rw [if_neg (by simpa using h)]
      rw [List.find?_cons_of_neg _ (by simp [h]),
        List.find?_cons_of_neg _ (by simp [h])]
      exact ih

lemma getRow_setRow_ne (db : List Notification) (id id2 : Nat)
    (f : Notification → Notification) (hf : ∀ n, (f n).id = n.id)
    (hne : id ≠ id2) :
    getRow (setRow db id2 f) id = getRow db id := by
  induction db with
  | nil => rfl
  | cons n rest ih =>
    simp only [getRow, setRow, List.map_cons] at ih ⊢
    by_cases h : n.id = id2
    · rw [if_pos (by simpa using h)]
      have hne2 : ¬((f n).id = id) := by
        rw [hf n, h]; exact fun hc => hne hc.symm
      have hne3 : ¬(n.id = id) := by
        rw [h]; exact fun hc => hne hc.symm
      rw [List.find?_cons_of_neg _ (by simp [hne2]),
        List.find?_cons_of_neg _ (by simp [hne3])]
      exact ih
    · rw [if_neg (by simpa using h)]
      by_cases h2 : n.id = id
      · rw [List.find?_cons_of_pos _ (by simp [h2]),
          List.find?_cons_of_pos _ (by simp [h2])]
      · rw [List.find?_cons_of_neg _ (by simp [h2]),
          List.find?_cons_of_neg _ (by simp [h2])]
        exact ih

lemma mem_insertBy {le : Notification → Notification → Bool}
    {a x : Notification} {l : List Notification} :
    a ∈ insertBy le x l ↔ a = x ∨ a ∈ l := by
  induction l with
  | nil => simp [insertBy]
  | cons b bs ih =>
    simp only [insertBy]
    by_cases h : le x b = true
    · rw [if_pos h]
      simp only [List.mem_cons]
    · rw [if_neg h]
      simp only [List.mem_cons, ih]
      tauto

lemma mem_sortBy {le : Notification → Notification → Bool}
    {a : Notification} {l : List Notification} :
    a ∈ sortBy le l ↔ a ∈ l := by
  induction l with
  | nil => rfl
  | cons b bs ih =>
    simp only [sortBy, mem_insertBy, List.mem_cons, ih]

lemma mem_getForProcess {db : List Notification} {locked : List Nat}
    {now : Int} {limit : Nat} {n : Notification}
    (h : n ∈ getForProcess db locked now limit) :
    n ∈ db ∧ n.status = .waiting ∧ n.scheduledAt ≤ now ∧ n.id ∉ locked := by
  have h1 : n ∈ sortBy (fun a b => a.scheduledAt ≤ b.scheduledAt)
      (db.filter (fun m =>
        m.status == .waiting && m.scheduledAt ≤ now && !(locked.contains m.id))) :=
    List.mem_of_mem_take h
  rw [mem_sortBy] at h1
  have h2 := List.mem_filter.mp h1
  obtain ⟨hmem, hprop⟩ := h2
  simp only [Bool.and_eq_true, beq_iff_eq, decide_eq_true_eq,
    Bool.not_eq_true'] at hprop
  refine ⟨hmem, hprop.1.1, hprop.1.2, fun hin => ?_⟩
  have : locked.contains n.id = true := List.elem_eq_true_of_mem hin
  rw [hprop.2] at this
  exact Bool.false_ne_true this

lemma int64wrap_eq_self {x : Int} (h1 : -(2 ^ 63) ≤ x) (h2 : x < 2 ^ 63) :
    int64wrap x = x := by
  unfold int64wrap
  rw [Int.emod_eq_of_lt (by omega) (by omega)]
  omega

/-! ### Concrete rows used by witnesses and counterexamples -/

/-- A notification already in the terminal `sent` state. -/
def exSentRow : Notification :=
  { id := 1, userId := 7, channel := "email", payload := "hello"
    recipientIdentifier := "a@x", scheduledAt := 100, sentAt := some 100
    status := .sent, retryCount := 0, lastError := none, createdAt := 50 }

/-- A due notification in the `waiting` state. -/
def exWaitingRow : Notification :=
  { id := 2, userId := 7, channel := "telegram", payload := "hi"
    recipientIdentifier := "123", scheduledAt := 100, sentAt := none
    status := .waiting, retryCount := 0, lastError := none, createdAt := 50 }

/-- A second due `waiting` notification. -/
def exWaitingRow2 : Notification :=
  { id := 3, userId := 8, channel := "email", payload := "yo"
    recipientIdentifier := "b@x", scheduledAt := 120, sentAt := none
    status := .waiting, retryCount := 0, lastError := none, createdAt := 60 }

/-! ### Claim C7 — sender facade contract -/

/-- Claim C7, counterexample. The claim says `Send` returns an
unsupported-channel error exactly when no concrete sender is registered
for the notification's channel. Here no telegram sender is registered
(`telegramSender = none`) yet `Send` on a telegram notification returns
nil, not the unsupported-channel error: in `multi.go` a recognised
channel with a nil sender falls through the switch to `return nil`. -/
theorem sender_facade_counterexample :
    MultiSender.send { telegramSender := none, emailSender := none } exWaitingRow
      = .ok ∧
    ∀ c, SendResult.ok ≠ SendResult.unsupported c :=
  ⟨rfl, fun _ h => SendResult.noConfusion h⟩

/-- Claim C7, amended: `MultiSender.Send` returns the unsupported-channel
error exactly when the channel is neither `telegram` nor `email`; for a
known channel it returns the registered sender's own result, and when the
known channel's sender is nil it returns nil (success) rather than an
error. -/
theorem sender_facade_amended (s : MultiSender) (n : Notification) :
    (n.channel ≠ "telegram" → n.channel ≠ "email" →
      s.send n = .unsupported n.channel) ∧
    (n.channel = "telegram" → s.telegramSender = none → s.send n = .ok) ∧
    (∀ f, n.channel = "telegram" → s.telegramSender = some f →
      s.send n = (match f n with | none => .ok | some m => .err m)) ∧
    (n.channel = "email" → s.emailSender = none → s.send n = .ok) ∧
    (∀ f, n.channel = "email" → s.emailSender = some f →
      s.send n = (match f n with | none => .ok | some m => .err m)) := by
  unfold MultiSender.send
  refine ⟨?_, ?_, ?_, ?_, ?_⟩
  · intro h1 h2
    rw [if_neg h1, if_neg h2]
  · intro h1 h2
    rw [if_pos h1, h2]
  · intro f h1 h2
    rw [if_pos h1, h2]
  · intro h1 h2
    by_cases ht : n.channel = "telegram"
    · rw [h1] at ht
      exact absurd ht (by decide)
    · rw [if_neg ht, if_pos h1, h2]
  · intro f h1 h2
    by_cases ht : n.channel = "telegram"
    · rw [h1] at ht
      exact absurd ht (by decide)
    · rw [if_neg ht, if_pos h1, h2]

/-- Claim C7, witness for the amended theorem: a facade with only an
email sender registered returns that sender's error for an email
notification. -/
theorem sender_facade_amended_witness :
    MultiSender.send
      { telegramSender := none, emailSender := some (fun _ => some "smtp down") }
      exSentRow = .err "smtp down" :=
  (sender_facade_amended
    { telegramSender := none, emailSender := some (fun _ => some "smtp down") }
    exSentRow).2.2.2.2 (fun _ => some "smtp down") rfl rfl

/-! ### Claim C5 — backoff cap -/

/-- Claim C5, counterexample. The claim says the exponential factor
`2^(retry_count-1)` is capped at a configured ceiling (e.g. 24h) so the
computed delay never exceeds it. `calculateNextAttempt` applies no cap:
with the default base delay of 5 minutes, retry count 10 yields a delay
of 5·2¹⁰ minutes ≈ 85 hours, exceeding a 24-hour ceiling. -/
theorem backoff_cap_counterexample :
    calculateNextAttempt defaultConfig.baseRetryDelay 0 10 > 24 * timeHour := by
  decide

/-- Claim C5, amended: no ceiling is applied; the delay is exactly
`base_delay · 2^retry_count` whenever that product fits in int64 (beyond
that the Go arithmetic wraps), and with the default configuration the
retry counts actually rescheduled (`retry_count < max_retries = 3`) give
delays of 5, 10 and 20 minutes, all below 24 hours. -/
theorem backoff_uncapped_exact (base now : Int) (k : Nat) (hk : k ≤ 62)
    (hb : 0 ≤ base) (hof : base * 2 ^ k < 2 ^ 63) :
    calculateNextAttempt base now k = now + base * 2 ^ k ∧
    (base = defaultConfig.baseRetryDelay → k < 3 →
      now + base * 2 ^ k ≤ now + 24 * timeHour) := by
  have hpow : (2 : Int) ^ k < 2 ^ 63 := by
    calc (2 : Int) ^ k ≤ 2 ^ 62 :=
          pow_le_pow_right₀ (by norm_num) hk
    _ < 2 ^ 63 := by norm_num
  have hpow0 : (0 : Int) ≤ 2 ^ k := pow_nonneg (by norm_num) k
  have h1 : int64wrap (2 ^ k) = 2 ^ k :=
    int64wrap_eq_self (by omega) hpow
  have hmul0 : (0 : Int) ≤ base * 2 ^ k := mul_nonneg hb hpow0
  have h2 : int64wrap (base * 2 ^ k) = base * 2 ^ k :=
    int64wrap_eq_self (by omega) hof
  constructor
  · unfold calculateNextAttempt
    rw [h1, h2]
  · intro hbase hk3
    have hle : base * 2 ^ k ≤ base * 2 ^ 2 := by
      apply mul_le_mul_of_nonneg_left _ hb
      exact pow_le_pow_right₀ (by norm_num) (by omega)
    have : base * 2 ^ 2 ≤ 24 * timeHour := by
      rw [hbase]
      decide
    omega

/-- Claim C5, witness for the amended theorem: with the default base
delay and retry count 2 the next attempt is exactly 20 minutes out. -/
theorem backoff_uncapped_exact_witness :
    calculateNextAttempt defaultConfig.baseRetryDelay 1000 2 =
      1000 + defaultConfig.baseRetryDelay * 2 ^ 2 ∧
    1000 + defaultConfig.baseRetryDelay * 2 ^ 2 ≤ 1000 + 24 * timeHour :=
  ⟨(backoff_uncapped_exact defaultConfig.baseRetryDelay 1000 2 (by norm_num)
      (by decide) (by decide)).1,
   (backoff_uncapped_exact defaultConfig.baseRetryDelay 1000 2 (by norm_num)
      (by decide) (by decide)).2 rfl (by norm_num)⟩

/-! ### Claim C10 — cache failures never surface on reads -/

/-- Claim C10: if the cache read in `GetStatus` returns a client error, or
a non-empty value that fails JSON decoding, `GetStatus` treats it as a
miss, reads the Store, and returns the Store's result (`DataNotFound`
surfacing as `NotificationNotFound`); the result is the same whether or
not the subsequent cache population fails. A cache error alone never
makes `GetStatus` fail. -/
theorem cache_error_fallthrough (cacheGet : Except Unit String)
    (decode : String → Option Notification) (saveFails : Bool)
    (db : List Notification) (id : Nat)
    (h : cacheGet = .error () ∨
      ∃ s, cacheGet = .ok s ∧ s ≠ "" ∧ decode s = none) :
    getStatus cacheGet decode saveFails db id =
      (match getRow db id with
       | none => .error .notificationNotFound
       | some n => .ok n) ∧
    getStatus cacheGet decode saveFails db id =
      getStatus cacheGet decode (!saveFails) db id := by
  have hfc : getFromCache cacheGet decode = .error () := by
    rcases h with h | ⟨s, hs, hne, hdec⟩
    · rw [h]
      rfl
    · simp only [getFromCache, hs, if_neg hne, hdec]
  constructor
  · unfold getStatus
    rw [hfc]
  · unfold getStatus
    rw [hfc]

/-- Claim C10, witness: with an erroring cache client, `GetStatus` serves
the stored `sent` row. -/
theorem cache_error_fallthrough_witness :
    getStatus (.error ()) (fun _ => none) true [exSentRow] 1 = .ok exSentRow :=
  ((cache_error_fallthrough (.error ()) (fun _ => none) true [exSentRow] 1
    (Or.inl rfl)).1).trans rfl

/-! ### Claim C3 — single-claimer disjointness -/

/-- Claim C3: two concurrently running claim transactions return disjoint
id sets. `FOR UPDATE SKIP LOCKED` is modelled by the `locked` id set: rows
returned by an open claiming transaction stay locked (hence invisible to
the other claimer) until that transaction ends, which is the hypothesis
`hlocked` — every id returned by the first claimer is in the lock set the
second claimer's query skips. -/
theorem single_claimer_disjoint (db : List Notification) (now : Int)
    (limit1 limit2 : Nat) (locked1 locked2 : List Nat)
    (hlocked : ∀ n ∈ getForProcess db locked1 now limit1, n.id ∈ locked2) :
    ∀ a ∈ getForProcess db locked1 now limit1,
      ∀ b ∈ getForProcess db locked2 now limit2, a.id ≠ b.id := by
  intro a ha b hb hab
  have hbprop := mem_getForProcess hb
  exact hbprop.2.2.2 (hab ▸ hlocked a ha)

/-- Claim C3, witness: with two due waiting rows, the first claimer takes
row 2 (holding its lock); the second claimer, skipping that lock, returns
row 3 — and the theorem yields that the two claimed ids differ. -/
theorem single_claimer_disjoint_witness :
    exWaitingRow.id ≠ exWaitingRow2.id :=
  single_claimer_disjoint [exWaitingRow, exWaitingRow2] 200 1 2 [] [2]
    (by decide) exWaitingRow (by decide) exWaitingRow2 (by decide)

lemma exceptBind_ok {ε α β : Type} (a : α) (f : α → Except ε β) :
    (Except.ok a : Except ε α) >>= f = f a := rfl

lemma getRow_id {db : List Notification} {id : Nat} {n : Notification}
    (h : getRow db id = some n) : n.id = id := by
  have := List.find?_some h
  simpa using this

lemma updateStatus_of_getRow {db : List Notification} {id : Nat} (now : Int)
    (st : Status) (le : Option String) {n : Notification}
    (h : getRow db id = some n) :
    updateStatus db now id st le = .ok (setRow db id (updateRow now st le)) := by
  unfold updateStatus
  rw [h]
  rfl

lemma rescheduleNotification_of_getRow {db : List Notification} {id : Nat}
    (t : Int) {n : Notification} (h : getRow db id = some n) :
    rescheduleNotification db id t = .ok (setRow db id (rescheduleRow t)) := by
  unfold rescheduleNotification
  rw [h]
  rfl

lemma getRow_after_setRow {db : List Notification} {id : Nat}
    {f : Notification → Notification} (hf : ∀ m, (f m).id = m.id)
    {n : Notification} (h : getRow db id = some n) :
    getRow (setRow db id f) id = some (f n) := by
  rw [getRow_setRow_self db id f hf, h]
  rfl

/-! ### Claim C2 — backoff law -/

/-- Claim C2: on a send failure where the incremented retry count
`k = retry_count + 1` satisfies `k ≤ max_retries`, the dispatcher's
transaction moves the row back to `waiting` with cleared `last_error` and
next attempt time `now + base_delay · 2^(k-1)` (the failure-handling
time plus the exponential backoff); when `k > max_retries` the row stays
in `failed` with `last_error` set and its schedule untouched. The
overflow-freedom hypotheses pin the Go int64 arithmetic to the exact
mathematical product. -/
theorem backoff_law (cfg : Config) (db : List Notification) (now : Int)
    (id : Nat) (msg : String) (n : Notification)
    (hrow : getRow db id = some n) (hk : n.retryCount ≤ 62)
    (hb : 0 ≤ cfg.baseRetryDelay)
    (hof : cfg.baseRetryDelay * 2 ^ n.retryCount < 2 ^ 63) :
    (n.retryCount + 1 ≤ cfg.maxRetries →
      ∃ db1, updateAfterSend cfg db now id (some msg) = .ok db1 ∧
        getRow db1 id = some { n with
          status := .waiting
          retryCount := n.retryCount + 1
          lastError := none
          scheduledAt := now + cfg.baseRetryDelay * 2 ^ n.retryCount }) ∧
    (cfg.maxRetries < n.retryCount + 1 →
      ∃ db1, updateAfterSend cfg db now id (some msg) = .ok db1 ∧
        getRow db1 id = some { n with
          status := .failed
          retryCount := n.retryCount + 1
          lastError := some msg }) := by
  have hget : getByID db id = .ok n := by
    unfold getByID
    rw [hrow]
  have hupd : updateStatus db now id .failed (some msg) =
      .ok (setRow db id (updateRow now .failed (some msg))) :=
    updateStatus_of_getRow now .failed (some msg) hrow
  have hrow1 : getRow (setRow db id (updateRow now .failed (some msg))) id =
      some (updateRow now .failed (some msg) n) :=
    getRow_after_setRow (fun m => updateRow_id now .failed (some msg) m) hrow
  have hdelay : calculateNextAttempt cfg.baseRetryDelay now n.retryCount =
      now + cfg.baseRetryDelay * 2 ^ n.retryCount :=
    (backoff_uncapped_exact cfg.baseRetryDelay now n.retryCount hk hb hof).1
  constructor
  · intro hle
    have hlt : n.retryCount < cfg.maxRetries := by omega
    refine ⟨setRow (setRow db id (updateRow now .failed (some msg))) id
      (rescheduleRow (calculateNextAttempt cfg.baseRetryDelay now n.retryCount)),
      ?_, ?_⟩
    · simp only [updateAfterSend, hget, exceptBind_ok, hupd, if_pos hlt]
      exact rescheduleNotification_of_getRow _ hrow1
    · rw [getRow_after_setRow (fun m => rescheduleRow_id _ m) hrow1, hdelay]
      rfl
  · intro hgt
    have hlt : ¬(n.retryCount < cfg.maxRetries) := by omega
    refine ⟨setRow db id (updateRow now .failed (some msg)), ?_, ?_⟩
    · simp only [updateAfterSend, hget, exceptBind_ok, hupd, if_neg hlt]
      rfl
    · rw [hrow1]
      rfl

/-- Claim C2, witness: a failing send on a row with retry count 0 under
the default configuration reschedules it to `waiting` 5 minutes out with
cleared `last_error`; a row with retry count 3 stays `failed`. -/
theorem backoff_law_witness :
    (∃ db1, updateAfterSend defaultConfig [exWaitingRow] 1000 2 (some "boom")
        = .ok db1 ∧
      getRow db1 2 = some { exWaitingRow with
        status := .waiting
        retryCount := 1
        lastError := none
        scheduledAt := 1000 + defaultConfig.baseRetryDelay * 2 ^ 0 }) :=
  (backoff_law defaultConfig [exWaitingRow] 1000 2 "boom" exWaitingRow
    rfl (by decide) (by decide) (by decide)).1 (by decide)

/-! ### Claim C1 — terminal stability -/

/-- Claim C1, counterexample. The claim says every subsequent operation
leaves a `sent` or `cancelled` row unchanged. But `UpdateStatus`,
`Reschedule` and the dispatcher's `updateAfterSend` carry no guard on the
row's current status: a duplicate delivery for an already-`sent` row
whose re-send fails moves the row to `failed` and then back to `waiting`
(retry count 0 < max retries 3), so the terminal `sent` state is left. -/
theorem terminal_stability_counterexample :
    exSentRow.status = .sent ∧
    updateAfterSend defaultConfig [exSentRow] 200 1 (some "boom") =
      .ok [{ exSentRow with
        status := .waiting
        retryCount := 1
        lastError := none
        scheduledAt := 200 + 5 * timeMinute }] ∧
    Status.waiting ≠ Status.sent := by
  refine ⟨rfl, ?_, by decide⟩
  rfl

/-- Claim C1, amended: only `Cancel` respects terminal statuses — it
refuses a `sent` row with `NotificationAlreadySent` and a `cancelled` row
with `NotificationAlreadyCancelled`, rolling back with no state change
and no cache invalidation. `UpdateStatus`, `Reschedule` and
`updateAfterSend` apply their transitions unconditionally, so a duplicate
delivery can move a row out of a terminal status. -/
theorem terminal_stability_amended (db : List Notification) (now : Int)
    (id : Nat) (n : Notification) (hrow : getRow db id = some n) :
    (n.status = .sent → cancel db now id = (.error .alreadySent, [])) ∧
    (n.status = .cancelled →
      cancel db now id = (.error .alreadyCancelled, [])) := by
  constructor
  · intro h
    unfold cancel
    rw [hrow]
    simp only [h, if_pos]
  · intro h
    unfold cancel
    rw [hrow]
    have hne : ¬(n.status = Status.sent) := by
      rw [h]
      decide
    simp only [h, hne, if_neg, if_pos, reduceCtorEq, if_false]

/-- Claim C1, witness for the amended theorem: cancelling an
already-`sent` row is refused with `NotificationAlreadySent`. -/
theorem terminal_stability_amended_witness :
    cancel [exSentRow] 300 1 = (.error .alreadySent, []) :=
  (terminal_stability_amended [exSentRow] 300 1 exSentRow rfl).1 rfl

/-! ### Claim C4 — scheduler bus-failure semantics -/

/-- Claim C4, counterexample. The claim says that when the bus publish of
a claimed notification fails, the row remains `waiting` after the tick so
it is claimed again later. In `publishToQueue` a publish failure instead
fires `UpdateStatus(failed, "publish error: …")`, so after the tick the
row is `failed` (with `retry_count` incremented), not `waiting`. -/
theorem bus_failure_counterexample :
    (processQueue [exWaitingRow] [] 150 10 (fun _ => some "conn refused")).db =
      [{ exWaitingRow with
        status := .failed
        retryCount := 1
        lastError := some "publish error: conn refused" }] ∧
    Status.failed ≠ Status.waiting := by
  refine ⟨?_, by decide⟩
  rfl

/-- Claim C4, amended: when the bus publish for a claimed row fails, the
tick commits the row with `status = failed`, `last_error = "publish
error: …"` and an incremented `retry_count`, and the publish is counted
as failed; a `failed` row is never returned by a later claim query (the
claim query selects `waiting` rows only), so the notification is not
retried by the scheduler. -/
theorem bus_failure_amended (db : List Notification) (now : Int)
    (n m : Notification) (e : String) (hrow : getRow db n.id = some m) :
    (publishToQueue db now n (some e)).2 = false ∧
    getRow (publishToQueue db now n (some e)).1 n.id =
      some { m with
        status := .failed
        retryCount := m.retryCount + 1
        lastError := some ("publish error: " ++ e) } ∧
    (∀ db2 locked now2 lim, ∀ r ∈ getForProcess db2 locked now2 lim,
      r.status = .waiting) := by
  have hupd : updateStatus db now n.id .failed (some ("publish error: " ++ e)) =
      .ok (setRow db n.id (updateRow now .failed (some ("publish error: " ++ e)))) :=
    updateStatus_of_getRow now .failed _ hrow
  refine ⟨?_, ?_, ?_⟩
  · simp only [publishToQueue, hupd]
  · simp only [publishToQueue, hupd]
    rw [getRow_after_setRow (fun k => updateRow_id _ _ _ k) hrow]
    rfl
  · intro db2 locked now2 lim r hr
    exact (mem_getForProcess hr).2.1

/-- Claim C4, witness for the amended theorem: a publish failure on a
present row marks it `failed` with the publish error recorded. -/
theorem bus_failure_amended_witness :
    getRow (publishToQueue [exWaitingRow] 150 exWaitingRow
        (some "conn refused")).1 2 =
      some { exWaitingRow with
        status := .failed
        retryCount := 1
        lastError := some ("publish error: " ++ "conn refused") } :=
  (bus_failure_amended [exWaitingRow] 150 exWaitingRow exWaitingRow
    "conn refused" rfl).2.1

lemma processQueue_foldl_invalidated (now : Int) (pubErr : Nat → Option String) :
    ∀ (l : List Notification) (acc : TickOutcome),
      (l.foldl (fun acc n =>
        let r := publishToQueue acc.db now n (pubErr n.id)
        if r.2 then
          { acc with db := r.1, processed := acc.processed + 1 }
        else
          { acc with db := r.1, failed := acc.failed + 1 }) acc).invalidated
        = acc.invalidated := by
  intro l
  induction l with
  | nil =>
    intro acc
    rfl
  | cons x xs ih =>
    intro acc
    rw [List.foldl_cons, ih]
    dsimp only
    split <;> rfl

lemma processQueue_invalidated (db : List Notification) (locked : List Nat)
    (now : Int) (lim : Nat) (pubErr : Nat → Option String) :
    (processQueue db locked now lim pubErr).invalidated = [] := by
  unfold processQueue
  rw [processQueue_foldl_invalidated]

/-! ### Claim C6 — cache invalidation rule -/

/-- Claim C6, counterexample. The claim says every operation committing a
Store mutation of an id is followed by a cache invalidation of that id.
A scheduler tick that successfully publishes a due row commits the
`waiting → in_process` mutation, yet the tick performs no cache
invalidation at all. -/
theorem cache_invalidation_counterexample :
    (processQueue [exWaitingRow] [] 150 10 (fun _ => none)).db ≠
      [exWaitingRow] ∧
    (processQueue [exWaitingRow] [] 150 10 (fun _ => none)).invalidated
      = [] := by
  refine ⟨by decide, rfl⟩

/-- Claim C6, amended: only the dispatcher's fully successful send path
and a successful `Cancel` invalidate the cache entry of the mutated id.
The scheduler tick (`ProcessQueue`) never invalidates anything, and the
dispatcher's failure path (which commits `failed` and possibly a
reschedule) returns before reaching its invalidation call. -/
theorem cache_invalidation_amended :
    (∀ db locked now lim pubErr,
      (processQueue db locked now lim pubErr).invalidated = []) ∧
    (∀ cfg db now id n, getRow db id = some n →
      (workerHandler cfg db now id none).invalidated = [id]) ∧
    (∀ cfg db now id msg,
      (workerHandler cfg db now id (some msg)).invalidated = []) ∧
    (∀ db now id n, getRow db id = some n → n.status ≠ .sent →
      n.status ≠ .cancelled → (cancel db now id).2 = [id]) := by
  refine ⟨processQueue_invalidated, ?_, ?_, ?_⟩
  · intro cfg db now id n hrow
    have : updateAfterSend cfg db now id none =
        .ok (setRow db id (updateRow now .sent none)) :=
      updateStatus_of_getRow now .sent none hrow
    simp only [workerHandler, this]
  · intro cfg db now id msg
    cases h : updateAfterSend cfg db now id (some msg) with
    | error e => simp only [workerHandler, h]
    | ok d => simp only [workerHandler, h]
  · intro db now id n hrow hsent hcanc
    simp only [cancel, hrow, if_neg hsent, if_neg hcanc,
      updateStatus_of_getRow now .cancelled (some "cancelled by user") hrow]

/-- Claim C6, witness for the amended theorem: the worker's success path
invalidates exactly the processed id. -/
theorem cache_invalidation_amended_witness :
    (workerHandler defaultConfig [exWaitingRow] 150 2 none).invalidated
      = [2] :=
  cache_invalidation_amended.2.1 defaultConfig [exWaitingRow] 150 2
    exWaitingRow rfl

/-- Link tables with a telegram chat id for user 7 and an email for
user 8. -/
def exLinks : Links :=
  { telegramChatId := fun u => if u = 7 then some 123 else none
    email := fun u => if u = 8 then some "b@x" else none }

/-- A valid create request for user 7 over telegram. -/
def exReq : CreateRequest :=
  { userId := 7, channel := "telegram", payload := "hi", scheduledAt := 500 }

/-! ### Claim C9 — atomic recipient resolution -/

/-- Claim C9, counterexample. The claim says the recipient lookup and the
notification insert execute inside one and the same database transaction.
`Create` actually opens two separate transactions — first
`get_recipient_identifier` for the lookup, then `create_notification`
for the insert — and no single transaction contains both operations, so
a user-link deletion can interleave between them. -/
theorem atomic_resolution_counterexample :
    (create exLinks [] 100 42 exReq).2 =
      [{ name := "get_recipient_identifier"
         ops := [.getTelegramChatId 7] },
       { name := "create_notification", ops := [.insert 42] }] ∧
    ¬ ∃ t ∈ (create exLinks [] 100 42 exReq).2,
        StoreOp.getTelegramChatId 7 ∈ t.ops ∧ StoreOp.insert 42 ∈ t.ops := by
  refine ⟨rfl, ?_⟩
  decide

/-- Claim C9, amended: for every request that passes validation and whose
recipient link resolves, `Create` runs exactly two consecutive
transactions: `get_recipient_identifier` containing only the link
lookup, then `create_notification` containing only the insert — the
lookup and the insert are never in the same transaction. -/
theorem atomic_resolution_amended (links : Links) (db : List Notification)
    (now : Int) (newId : Nat) (req : CreateRequest)
    (hval : validateCreateRequest req = none)
    (hres : (req.channel = "telegram" ∧
        (links.telegramChatId req.userId).isSome) ∨
      (req.channel = "email" ∧ (links.email req.userId).isSome)) :
    (create links db now newId req).2 =
      [{ name := "get_recipient_identifier"
         ops := if req.channel = "telegram" then
             [.getTelegramChatId req.userId]
           else [.getEmail req.userId] },
       { name := "create_notification", ops := [.insert newId] }] := by
  rcases hres with ⟨hch, hsome⟩ | ⟨hch, hsome⟩
  · obtain ⟨c, hc⟩ := Option.isSome_iff_exists.mp hsome
    simp only [create, hval, hch, if_pos, hc]
    split <;> rfl
  · have hne2 : ¬(("email" : String) = "telegram") := by decide
    obtain ⟨e, he⟩ := Option.isSome_iff_exists.mp hsome
    simp only [create, hval, hch, if_neg hne2, if_pos, he]
    split <;> rfl

/-- Claim C9, witness for the amended theorem at the concrete request. -/
theorem atomic_resolution_amended_witness :
    (create exLinks [] 100 42 exReq).2 =
      [{ name := "get_recipient_identifier"
         ops := [.getTelegramChatId 7] },
       { name := "create_notification", ops := [.insert 42] }] :=
  atomic_resolution_amended exLinks [] 100 42 exReq rfl (Or.inl ⟨rfl, rfl⟩)

/-! ### Claim C8 — create validation and clamping -/

/-- Claim C8: `Create` fails with `InvalidData` exactly when `user_id` is
the zero UUID, the channel is empty or not one of telegram/email, the
payload is empty, or `scheduled_at` is the zero time; and for an
otherwise-valid request (recipient resolvable, fresh id) whose
`scheduled_at` lies in the past, `Create` succeeds and the created row's
`scheduled_at` equals `now() + 1min`, hence lies in
`[now(), now() + 2min]`. -/
theorem create_validation_and_clamp (links : Links) (db : List Notification)
    (now : Int) (newId : Nat) (req : CreateRequest) :
    (validateCreateRequest req = some .invalidData ↔
      (req.userId = 0 ∨ req.channel = "" ∨ channelIsValid req.channel = false ∨
       req.payload = "" ∨ req.scheduledAt = 0)) ∧
    (validateCreateRequest req = none → req.scheduledAt < now →
      ((req.channel = "telegram" ∧
          (links.telegramChatId req.userId).isSome) ∨
        (req.channel = "email" ∧ (links.email req.userId).isSome)) →
      getRow db newId = none →
      ∃ n db1, (create links db now newId req).1 = .ok (n, db1) ∧
        n.scheduledAt = now + timeMinute ∧
        now ≤ n.scheduledAt ∧ n.scheduledAt ≤ now + 2 * timeMinute) := by
  constructor
  · unfold validateCreateRequest
    split_ifs with h1 h2 h3 h4 h5 <;> simp_all
  · intro hval hpast hres hfresh
    have hclamp : (if req.scheduledAt < now then now + timeMinute
        else req.scheduledAt) = now + timeMinute := if_pos hpast
    have hbound1 : now ≤ now + timeMinute := by
      have : (0 : Int) ≤ timeMinute := by decide
      omega
    have hbound2 : now + timeMinute ≤ now + 2 * timeMinute := by
      have : (0 : Int) ≤ timeMinute := by decide
      omega
    have hnotsome : ¬((getRow db newId).isSome = true) := by
      rw [hfresh]
      decide
    rcases hres with ⟨hch, hsome⟩ | ⟨hch, hsome⟩
    · obtain ⟨c, hc⟩ := Option.isSome_iff_exists.mp hsome
      refine ⟨{ id := newId, userId := req.userId, channel := "telegram"
                payload := req.payload, recipientIdentifier := toString c
                scheduledAt := now + timeMinute, sentAt := none
                status := .waiting, retryCount := 0, lastError := none
                createdAt := now },
        db ++ [{ id := newId, userId := req.userId, channel := "telegram"
                 payload := req.payload, recipientIdentifier := toString c
                 scheduledAt := now + timeMinute, sentAt := none
                 status := .waiting, retryCount := 0, lastError := none
                 createdAt := now }], ?_, rfl, hbound1, hbound2⟩
      simp only [create, hval, hch, if_pos, hc, hnotsome, if_false, hclamp,
        Bool.false_eq_true]
    · have hne2 : ¬(("email" : String) = "telegram") := by decide
      obtain ⟨e, he⟩ := Option.isSome_iff_exists.mp hsome
      refine ⟨{ id := newId, userId := req.userId, channel := "email"
                payload := req.payload, recipientIdentifier := e
                scheduledAt := now + timeMinute, sentAt := none
                status := .waiting, retryCount := 0, lastError := none
                createdAt := now },
        db ++ [{ id := newId, userId := req.userId, channel := "email"
                 payload := req.payload, recipientIdentifier := e
                 scheduledAt := now + timeMinute, sentAt := none
                 status := .waiting, retryCount := 0, lastError := none
                 createdAt := now }], ?_, rfl, hbound1, hbound2⟩
      simp only [create, hval, hch, if_neg hne2, if_pos, he, hnotsome,
        if_false, hclamp, Bool.false_eq_true]

/-- Claim C8, witness: an otherwise-valid telegram request scheduled in
the past (scheduled_at 500, now 1000) is accepted and clamped to
now + 1 minute. -/
theorem create_validation_and_clamp_witness :
    ∃ n db1, (create exLinks [] 1000 42 exReq).1 = .ok (n, db1) ∧
      n.scheduledAt = 1000 + timeMinute ∧
      1000 ≤ n.scheduledAt ∧ n.scheduledAt ≤ 1000 + 2 * timeMinute :=
  (create_validation_and_clamp exLinks [] 1000 42 exReq).2 rfl (by decide)
    (Or.inl ⟨rfl, rfl⟩) rfl

end DelayedNotifier
